import Mathlib

set_option maxRecDepth 40000
set_option maxHeartbeats 2000000

/-!
Shallow embedding of `interview_assistant.py` (Resume-Aware Interview
Assistant): a Streamlit script that loads optional dependencies (openai,
speech_recognition, gtts, pypdf), builds a resume-aware prompt with
`textwrap.dedent`, sends it to a chat-completion service, and renders the
answer, with a voice (Quick Listen) path available outside cloud mode.

Python strings are modelled by Lean `String`/`List Char` (ASCII-faithful);
external services (chat completion, speech recognition, text to speech) are
modelled as explicit oracles passed in as functions; Streamlit display calls
are modelled as an effect list plus explicit placeholder contents.
-/

namespace InterviewAssistant

/-! ### Python string helpers -/

/-- Characters stripped by Python `str.strip()` (ASCII whitespace). -/
def pyIsSpace (c : Char) : Bool :=
  c == ' ' || c == '\t' || c == '\n' || c == '\r' || c.val == 11 || c.val == 12

/-- Model of Python `str.strip()`. -/
def pyStrip (s : String) : String :=
  ⟨(((s.data.dropWhile pyIsSpace).reverse.dropWhile pyIsSpace).reverse)⟩

/-- Python truthiness of an optional string (`None` and `""` are falsy). -/
def pyTruthy : Option String → Bool
  | none => false
  | some s => !s.isEmpty

/-! ### Model of `textwrap.dedent`

`textwrap.dedent` splits the text into lines, replaces lines consisting
solely of spaces/tabs by empty lines, computes the longest common leading
space/tab margin of the remaining non-blank lines, and strips that margin
from every line. -/

/-- Split a character list into lines at every newline character
(the result always has at least one element, like Python `str.split`). -/
def splitLines : List Char → List (List Char)
  | [] => [[]]
  | c :: rest =>
    if c = '\n' then [] :: splitLines rest
    else
      match splitLines rest with
      | [] => [[c]]
      | l :: ls => (c :: l) :: ls

/-- Join lines back with newline separators (inverse of `splitLines`). -/
def joinLines : List (List Char) → List Char
  | [] => []
  | [l] => l
  | l :: ls => l ++ '\n' :: joinLines ls

/-- Space or tab, the characters relevant to `textwrap.dedent`. -/
def isWsChar (c : Char) : Bool := c == ' ' || c == '\t'

/-- A line matched by `textwrap`'s whitespace-only-line pattern
(nonempty and made of spaces/tabs only). -/
def isBlankLine (l : List Char) : Bool := !l.isEmpty && l.all isWsChar

/-- Normalize a whitespace-only line to the empty line. -/
def normLine (l : List Char) : List Char := if isBlankLine l then [] else l

/-- Leading space/tab indent of a line. -/
def lineIndentOf (l : List Char) : List Char := l.takeWhile isWsChar

/-- Fold of `textwrap.dedent`'s margin computation: keep the current margin
while each further indent extends it, shrink it to an indent that is a
prefix of it, and give up (empty margin) on incomparable indents. -/
def marginFold : List Char → List (List Char) → List Char
  | m, [] => m
  | m, i :: is =>
    if m.isPrefixOf i then marginFold m is
    else if i.isPrefixOf m then marginFold i is
    else []

/-- Common margin of a list of indents (empty when there are none). -/
def computeMargin : List (List Char) → List Char
  | [] => []
  | i :: is => marginFold i is

/-- Remove the margin from a line that carries it. -/
def stripMargin (m l : List Char) : List Char :=
  if m.isPrefixOf l then l.drop m.length else l

/-- Strip the common margin from normalized lines (no-op when it is empty). -/
def dedentLines (ls : List (List Char)) : List (List Char) :=
  if (computeMargin ((ls.filter (fun l => !l.isEmpty)).map lineIndentOf)).isEmpty then ls
  else ls.map (stripMargin (computeMargin ((ls.filter (fun l => !l.isEmpty)).map lineIndentOf)))

/-- `textwrap.dedent` on character lists: split into lines, normalize
whitespace-only lines, strip the common margin, join back. -/
def dedentChars (xs : List Char) : List Char :=
  joinLines (dedentLines ((splitLines xs).map normLine))

/-- Model of Python `textwrap.dedent` on strings. -/
def dedent (s : String) : String := ⟨dedentChars s.data⟩

/-! ### Prompt construction (`SYSTEM_PROMPT`, `get_chatgpt_answer`) -/

/-- The `SYSTEM_PROMPT` module constant: `dedent` applied to the triple-quoted
literal of the source (whose lines are indented by four spaces). -/
def SYSTEM_PROMPT : String :=
  dedent "\n    Consider this is your profile and act as candidate you were in the interview and I will be the\n    interviewer asking you the questions. Send me the answers only when I ask the prompt and\n    coding answers should be different if someone ask the same question again. If its coding send\n    me with brief explanation and time and space complexity and no intros in the starting of the\n    answers.\n    "

/-- The instruction text proper (the content lines of `SYSTEM_PROMPT`). -/
def instructionCore : String :=
  "Consider this is your profile and act as candidate you were in the interview and I will be the\ninterviewer asking you the questions. Send me the answers only when I ask the prompt and\ncoding answers should be different if someone ask the same question again. If its coding send\nme with brief explanation and time and space complexity and no intros in the starting of the\nanswers."

/-- The `full_prompt` f-string of `get_chatgpt_answer` (whose lines are
indented by eight spaces), passed through `dedent`. -/
def full_prompt (question resume_text : String) : String :=
  dedent ("\n        " ++ SYSTEM_PROMPT ++ "\n\n        Resume summary:\n        "
    ++ resume_text ++ "\n\n        Interviewer question: " ++ question ++ "\n        ")

/-! ### Streamlit effects and the chat-completion call -/

/-- A Streamlit display call observable by the user. -/
inductive Effect
  | warning (msg : String)
  | error (msg : String)
  | info (msg : String)
  | success (msg : String)
  deriving DecidableEq, Repr

/-- One role-tagged message of a chat-completion request. -/
structure ChatMessage where
  role : String
  content : String
  deriving DecidableEq, Repr

/-- One request issued to the chat-completion service. -/
structure ChatRequest where
  model : String
  messages : List ChatMessage
  deriving DecidableEq, Repr

/-- Result of running `get_chatgpt_answer`: display effects, the requests
issued to the completion service, and the returned value. -/
structure ChatOutcome where
  effects : List Effect
  calls : List ChatRequest
  answer : Option String
  deriving DecidableEq, Repr

/-- Model of `get_chatgpt_answer(question, resume_text)`. The completion
service is an oracle from the prompt to either the content of
`response.choices[0].message.content` or a raised exception message. -/
def get_chatgpt_answer (openaiPresent : Bool)
    (completion : String → Except String String)
    (question : String) (resume_text : Option String) : ChatOutcome :=
  if !pyTruthy resume_text then
    { effects := [.warning "Please upload a resume first so responses are contextual."],
      calls := [], answer := none }
  else if !openaiPresent then
    { effects := [.error "OpenAI package is unavailable. Set it up to generate answers."],
      calls := [], answer := none }
  else
    let fp := full_prompt question ((resume_text).getD "")
    let req : ChatRequest := { model := "gpt-4o", messages := [⟨"user", fp⟩] }
    match completion fp with
    | .ok content => { effects := [], calls := [req], answer := some (pyStrip content) }
    | .error exc =>
      { effects := [.error ("OpenAI API Error: " ++ exc)], calls := [req], answer := none }

/-! ### Dependency load and configuration (process startup) -/

/-- Which optional packages `importlib.util.find_spec` reports as present. -/
structure Deps where
  openai : Bool
  sr : Bool
  gtts : Bool
  pypdf : Bool
  deriving DecidableEq, Repr

/-- The single warning of the DEPENDENCY LOAD section:
`if not all([openai, sr, gTTS, PdfReader]): st.warning(...)`. -/
def dependencyLoadWarnings (d : Deps) : List Effect :=
  if !(d.openai && d.sr && d.gtts && d.pypdf) then
    [.warning "⚠️ Some audio or PDF libraries couldn\x27t load (expected in cloud mode)."]
  else []

/-- Result of a Python statement block: normal completion or an uncaught
exception. -/
inductive PyResult (α : Type)
  | ok (a : α)
  | raised (exc : String)
  deriving DecidableEq, Repr

/-- The CONFIGURATION block:
`try: openai.api_key = st.secrets[...]  except Exception: openai.api_key = os.getenv(...)`.
When the `openai` module is absent (bound to `None`), the attribute assignment
in the `try` body raises `AttributeError`; the `except` handler then performs
the same attribute assignment on `None` and raises again, uncaught. When
`openai` is present, either the secrets lookup succeeds or the `except`
handler falls back to the environment variable; both complete normally. -/
def configureApiKey (d : Deps) (_secretsHasKey : Bool) : PyResult Unit :=
  if d.openai then .ok ()
  else .raised "AttributeError: NoneType object has no attribute api_key"

/-- Module-level startup: dependency load (with its warning) followed by the
CONFIGURATION block; returns the emitted effects or the uncaught exception. -/
def startup (d : Deps) (secretsHasKey : Bool) : PyResult (List Effect) :=
  match configureApiKey d secretsHasKey with
  | .ok _ => .ok (dependencyLoadWarnings d)
  | .raised e => .raised e

/-! ### Voice capture and speech synthesis -/

/-- One call to `recognizer.listen(source, phrase_time_limit=15)`:
the maximum listen duration handed to the speech-recognition adapter. -/
structure CaptureRequest where
  maxListenSeconds : Nat
  deriving DecidableEq, Repr

/-- Result of `listen_and_transcribe`: display effects, the capture requests
issued to the microphone adapter, and the transcribed text (or `None`). -/
structure ListenOutcome where
  effects : List Effect
  captures : List CaptureRequest
  text : Option String
  deriving DecidableEq, Repr

/-- Model of `listen_and_transcribe()`. The recognizer is an oracle from the
maximum listen duration to either the transcript of
`recognizer.recognize_google(audio)` or a raised exception message. -/
def listen_and_transcribe (srPresent : Bool)
    (recognize : Nat → Except String String) : ListenOutcome :=
  if !srPresent then
    { effects := [.error "Speech recognition is unavailable in this environment."],
      captures := [], text := none }
  else
    match recognize 15 with
    | .ok transcript =>
      { effects := [.info "🎙️ Listening via quick shortcut... Speak your question.",
                    .info "🧠 Converting speech to text..."],
        captures := [⟨15⟩], text := some transcript }
    | .error exc =>
      { effects := [.info "🎙️ Listening via quick shortcut... Speak your question.",
                    .error ("Speech recognition failed: " ++ exc)],
        captures := [⟨15⟩], text := none }

/-- Model of `speak_text(text)`: the effects shown and the texts handed to the
speech synthesizer (`ttsOk` is whether the gTTS call and playback succeed). -/
def speak_text (gttsPresent ttsOk : Bool) (text : String) : List Effect × List String :=
  if !gttsPresent then
    ([.warning "Speech playback is unavailable in this environment."], [])
  else if ttsOk then ([], [text])
  else ([.warning "Speech playback not available: error"], [text])

/-! ### Mode detection and UI surface -/

/-- Environment signals consumed by the MODE DETECTION section. -/
structure Env where
  streamlitRuntimeEnv : Option String
  srPresent : Bool
  srHasMicrophone : Bool
  deriving DecidableEq, Repr

/-- `IS_CLOUD = os.getenv("STREAMLIT_RUNTIME_ENV") == "cloud" or sr is None
or not hasattr(sr, "Microphone")`. -/
def IS_CLOUD (e : Env) : Bool :=
  e.streamlitRuntimeEnv == some "cloud" || !e.srPresent || !e.srHasMicrophone

/-- The `speechInput` capability of the spec: speech_recognition importable,
with a `Microphone` attribute, and not running in the cloud environment. -/
def speechInput (e : Env) : Bool :=
  e.srPresent && e.srHasMicrophone && !(e.streamlitRuntimeEnv == some "cloud")

/-- The interactive controls the MAIN UI section can render. -/
inductive UIAction
  | uploadResume
  | textInput
  | generateAnswer
  | quickListen
  deriving DecidableEq, Repr

/-- The controls rendered for a given environment and typed input: the resume
uploader and the question text input always; the Quick Listen button only
outside cloud mode; the Generate Answer button always in cloud mode, and in
local mode only once the typed input is non-blank (the `st.button` call sits
behind `user_input.strip() and ...`). -/
def offeredActions (e : Env) (userInput : String) : List UIAction :=
  if IS_CLOUD e then
    [.uploadResume, .textInput, .generateAnswer]
  else if !(pyStrip userInput).isEmpty then
    [.uploadResume, .textInput, .quickListen, .generateAnswer]
  else
    [.uploadResume, .textInput, .quickListen]

/-! ### The question-answer section of the script (MAIN UI) -/

/-- Contents of the three `st.empty()` display regions. The script rewrites
them during a run; `init` models what the user currently sees. -/
structure Placeholders where
  status : String
  question : String
  answer : String
  deriving DecidableEq, Repr

/-- Inputs of one script run of the question section. -/
structure RunInput where
  env : Env
  userInput : String
  generateClicked : Bool
  listenClicked : Bool
  resume : Option String
  openaiPresent : Bool
  gttsPresent : Bool
  deriving Repr

/-- Observable outcome of one script run of the question section. -/
structure RunOutcome where
  ph : Placeholders
  calls : List ChatRequest
  effects : List Effect
  speaks : List String
  deriving DecidableEq, Repr

/-- The cloud branch: `if st.button("Generate Answer") and user_input.strip():`
then a completion request whose answer, if any, replaces the answer region. -/
def cloudBranch (completion : String → Except String String)
    (inp : RunInput) (st : Placeholders) : RunOutcome :=
  if inp.generateClicked && !(pyStrip inp.userInput).isEmpty then
    let g := get_chatgpt_answer inp.openaiPresent completion inp.userInput inp.resume
    match g.answer with
    | some a => { ph := { st with answer := a }, calls := g.calls, effects := g.effects, speaks := [] }
    | none => { ph := st, calls := g.calls, effects := g.effects, speaks := [] }
  else { ph := st, calls := [], effects := [], speaks := [] }

/-- The local typed-question branch:
`if user_input.strip() and st.button("Generate Answer", key="text_generate"):`;
on a successful answer it rewrites the question, answer and status regions and
speaks the answer; on `None` it changes nothing. -/
def typedBranch (completion : String → Except String String) (ttsOk : Bool)
    (inp : RunInput) (st : Placeholders) : RunOutcome :=
  if !(pyStrip inp.userInput).isEmpty && inp.generateClicked then
    let g := get_chatgpt_answer inp.openaiPresent completion inp.userInput inp.resume
    match g.answer with
    | some a =>
      let sp := speak_text inp.gttsPresent ttsOk a
      { ph := { status := "✅ Answer displayed and spoken aloud.",
                question := "**📝 Prompt:** " ++ inp.userInput,
                answer := "💬 **AI Answer:** " ++ a },
        calls := g.calls, effects := g.effects ++ sp.1, speaks := sp.2 }
    | none => { ph := st, calls := g.calls, effects := g.effects, speaks := [] }
  else { ph := st, calls := [], effects := [], speaks := [] }

/-- The Quick Listen branch (`if listen_clicked:`): transcribe, then show the
captured question and the interim text `_Generating answer..._` in the answer
region **before** requesting the completion; on success overwrite the answer
region with the answer, on `None` leave the interim text in place. -/
def listenBranch (completion : String → Except String String)
    (recognize : Nat → Except String String) (ttsOk : Bool)
    (inp : RunInput) (st : Placeholders) : RunOutcome :=
  if inp.listenClicked then
    let lt := listen_and_transcribe inp.env.srPresent recognize
    match lt.text with
    | some question =>
      let st1 : Placeholders :=
        { st with question := "**🎧 Shortcut captured:** " ++ question,
                  answer := "_Generating answer..._" }
      let g := get_chatgpt_answer inp.openaiPresent completion question inp.resume
      match g.answer with
      | some a =>
        let sp := speak_text inp.gttsPresent ttsOk a
        { ph := { st1 with answer := "💬 **AI Answer:** " ++ a,
                           status := "✅ Answer displayed and spoken aloud." },
          calls := g.calls, effects := lt.effects ++ g.effects ++ sp.1, speaks := sp.2 }
      | none => { ph := st1, calls := g.calls, effects := lt.effects ++ g.effects, speaks := [] }
    | none =>
      { ph := { st with status := "❌ Could not understand speech. Try again." },
        calls := [], effects := lt.effects, speaks := [] }
  else { ph := st, calls := [], effects := [], speaks := [] }

/-- One script run of the question section: the cloud branch when `IS_CLOUD`,
otherwise the typed branch followed by the Quick Listen branch. -/
def mainRun (completion : String → Except String String)
    (recognize : Nat → Except String String) (ttsOk : Bool)
    (inp : RunInput) (init : Placeholders) : RunOutcome :=
  if IS_CLOUD inp.env then
    let o := cloudBranch completion inp init
    { o with effects := .warning "☁️ Running in Streamlit Cloud — microphone shortcut not available here." :: o.effects }
  else
    let o1 := typedBranch completion ttsOk inp init
    let o2 := listenBranch completion recognize ttsOk inp o1.ph
    { ph := o2.ph, calls := o1.calls ++ o2.calls,
      effects := o1.effects ++ o2.effects, speaks := o1.speaks ++ o2.speaks }

/-! ### Decidable helpers for the theorems -/

/-- Substring test on character lists. -/
def hasSub (needle : List Char) : List Char → Bool
  | [] => needle.isPrefixOf []
  | c :: rest => needle.isPrefixOf (c :: rest) || hasSub needle rest

/-- A line either empty or containing a non-space/tab character; such lines
pass through `textwrap.dedent`'s blank-line normalization unchanged. -/
def lineIntact (l : List Char) : Bool := l.isEmpty || l.any (fun c => !isWsChar c)

/-- Every line of the string survives `dedent`'s blank-line normalization. -/
def linesIntact (s : String) : Bool := (splitLines s.data).all lineIntact

/-- The first line of the string contains a non-space/tab character. -/
def firstLineSolid (s : String) : Bool :=
  ((splitLines s.data).headD []).any (fun c => !isWsChar c)

/-- The eight-space indent of the prompt template lines. -/
def sp8 : List Char := "        ".data

/-- The template text preceding the question on its line. -/
def iqSeg : List Char := "        Interviewer question: ".data

/-- The prompt template up to the last newline before the resume text. -/
def promptHead : String := "\n        \n" ++ instructionCore ++ "\n\n\n        Resume summary:"

/-- The same template segment after `dedent`'s blank-line normalization. -/
def answerHead : String := "\n\n" ++ instructionCore ++ "\n\n\n        Resume summary:"

/-! ### Lemmas about the line machinery of `dedent` -/

theorem splitLines_ne_nil (xs : List Char) : splitLines xs ≠ [] := by
  match xs with
  | [] => simp [splitLines]
  | c :: rest =>
    rw [splitLines]
    split
    · simp
    · cases h : splitLines rest <;> simp

theorem splitLines_cons_newline (ys : List Char) :
    splitLines ('\n' :: ys) = [] :: splitLines ys := by
  rw [splitLines]
  simp

theorem splitLines_cons_other (c : Char) (ys l : List Char) (ls : List (List Char))
    (hc : c ≠ '\n') (h : splitLines ys = l :: ls) :
    splitLines (c :: ys) = (c :: l) :: ls := by
  rw [splitLines, if_neg hc, h]

theorem splitLines_append_newline (xs ys : List Char) :
    splitLines (xs ++ '\n' :: ys) = splitLines xs ++ splitLines ys := by
  induction xs with
  | nil => simp [splitLines_cons_newline, splitLines]
  | cons c xs ih =>
    by_cases hc : c = '\n'
    · subst hc
      rw [List.cons_append, splitLines_cons_newline, splitLines_cons_newline, ih,
        List.cons_append]
    · obtain ⟨l, ls, h⟩ : ∃ l ls, splitLines xs = l :: ls := by
        cases h : splitLines xs with
        | nil => exact absurd h (splitLines_ne_nil xs)
        | cons l ls => exact ⟨l, ls, rfl⟩
      have h2 : splitLines (xs ++ '\n' :: ys) = (l :: ls) ++ splitLines ys := by
        rw [ih, h]
      rw [List.cons_append, splitLines_cons_other c _ _ _ hc h2,
        splitLines_cons_other c _ _ _ hc h, List.cons_append]
      rfl

theorem splitLines_append_flat (xs ys l : List Char) (ls : List (List Char))
    (hx : '\n' ∉ xs) (h : splitLines ys = l :: ls) :
    splitLines (xs ++ ys) = (xs ++ l) :: ls := by
  induction xs with
  | nil => simpa using h
  | cons c xs ih =>
    have hc : c ≠ '\n' := fun hc => hx (hc ▸ List.mem_cons_self c xs)
    have hxs : '\n' ∉ xs := fun hm => hx (List.mem_cons_of_mem c hm)
    rw [List.cons_append, splitLines_cons_other c _ _ _ hc (ih hxs), List.cons_append]

theorem joinLines_cons_cons (l l' : List Char) (ls : List (List Char)) :
    joinLines (l :: l' :: ls) = l ++ '\n' :: joinLines (l' :: ls) := by
  rw [joinLines]
  simp

theorem joinLines_append (as bs : List (List Char)) (ha : as ≠ []) (hb : bs ≠ []) :
    joinLines (as ++ bs) = joinLines as ++ '\n' :: joinLines bs := by
  induction as with
  | nil => exact absurd rfl ha
  | cons a as ih =>
    cases as with
    | nil =>
      cases bs with
      | nil => exact absurd rfl hb
      | cons b bs =>
        rw [List.singleton_append, joinLines_cons_cons]
        rfl
    | cons a' as' =>
      calc joinLines ((a :: a' :: as') ++ bs)
          = a ++ '\n' :: joinLines ((a' :: as') ++ bs) := by
            rw [show (a :: a' :: as') ++ bs = a :: ((a' :: as') ++ bs) from rfl,
              show (a' :: as') ++ bs = a' :: (as' ++ bs) from rfl, joinLines_cons_cons]
        _ = a ++ '\n' :: (joinLines (a' :: as') ++ '\n' :: joinLines bs) := by
            rw [ih (by simp)]
        _ = joinLines (a :: a' :: as') ++ '\n' :: joinLines bs := by
            rw [joinLines_cons_cons a a' as', List.append_assoc]
            rfl

theorem joinLines_splitLines (xs : List Char) : joinLines (splitLines xs) = xs := by
  induction xs with
  | nil => simp [splitLines, joinLines]
  | cons c xs ih =>
    by_cases hc : c = '\n'
    · subst hc
      rw [splitLines_cons_newline]
      obtain ⟨l, ls, h⟩ : ∃ l ls, splitLines xs = l :: ls := by
        cases h : splitLines xs with
        | nil => exact absurd h (splitLines_ne_nil xs)
        | cons l ls => exact ⟨l, ls, rfl⟩
      rw [h, joinLines_cons_cons, ← h, ih]
      simp
    · obtain ⟨l, ls, h⟩ : ∃ l ls, splitLines xs = l :: ls := by
        cases h : splitLines xs with
        | nil => exact absurd h (splitLines_ne_nil xs)
        | cons l ls => exact ⟨l, ls, rfl⟩
      rw [splitLines_cons_other c _ _ _ hc h]
      cases ls with
      | nil =>
        rw [joinLines]
        rw [h] at ih
        rw [joinLines] at ih
        rw [ih]
      | cons l' ls' =>
        rw [joinLines_cons_cons]
        rw [h, joinLines_cons_cons] at ih
        simp only [List.cons_append]
        rw [ih]

theorem joinLines_head_append (x h : List Char) (t : List (List Char)) :
    joinLines ((x ++ h) :: t) = x ++ joinLines (h :: t) := by
  cases t with
  | nil => rw [joinLines, joinLines]
  | cons l ls => rw [joinLines_cons_cons, joinLines_cons_cons, List.append_assoc]

theorem normLine_of_intact_nonnil (l : List Char)
    (h : l.any (fun c => !isWsChar c) = true) : normLine l = l := by
  rcases List.any_eq_true.mp h with ⟨c, hc, hnc⟩
  have hall : l.all isWsChar = false := by
    cases hb : l.all isWsChar with
    | false => rfl
    | true => exact absurd (List.all_eq_true.mp hb c hc) (by simpa using hnc)
  rw [normLine, isBlankLine, hall]
  simp

theorem normLine_map_of_intact (ls : List (List Char))
    (h : ls.all lineIntact = true) : ls.map normLine = ls := by
  induction ls with
  | nil => rfl
  | cons l ls ih =>
    rw [List.all_cons, Bool.and_eq_true] at h
    rw [List.map_cons, ih h.2]
    rcases Bool.or_eq_true_iff.mp h.1 with he | hs
    · have : l = [] := by simpa using he
      subst this
      rfl
    · rw [normLine_of_intact_nonnil l hs]

theorem marginFold_nil (is : List (List Char)) : marginFold [] is = [] := by
  induction is with
  | nil => rfl
  | cons i is ih =>
    have hpre : List.isPrefixOf ([] : List Char) i = true := by
      cases i <;> rfl
    simp [marginFold, hpre, ih]

theorem marginFold_of_mem_nil (m : List Char) (is : List (List Char))
    (h : [] ∈ is) : marginFold m is = [] := by
  induction is generalizing m with
  | nil => cases h
  | cons i is ih =>
    rcases List.mem_cons.mp h with hi | hi
    · subst hi
      rw [marginFold]
      by_cases hp : m.isPrefixOf ([] : List Char) = true
      · have : m = [] := by
          cases m with
          | nil => rfl
          | cons c cs => simp [List.isPrefixOf] at hp
        subst this
        simp [marginFold_nil]
      · have hp2 : List.isPrefixOf ([] : List Char) m = true := by
          cases m <;> rfl
        simp only [hp, hp2]
        simp [marginFold_nil]
    · rw [marginFold]
      by_cases h1 : m.isPrefixOf i = true
      · simp only [h1, if_true]
        exact ih m hi
      · simp only [h1]
        by_cases h2 : i.isPrefixOf m = true
        · simp only [h2, if_true, if_false]
          exact ih i hi
        · simp [h1, h2]

theorem computeMargin_of_mem_nil (is : List (List Char)) (h : [] ∈ is) :
    computeMargin is = [] := by
  cases is with
  | nil => cases h
  | cons i is =>
    rcases List.mem_cons.mp h with hi | hi
    · subst hi
      exact marginFold_nil is
    · exact marginFold_of_mem_nil i is hi

theorem dedentLines_of_margin_nil (ls : List (List Char))
    (h : computeMargin ((ls.filter (fun l => !l.isEmpty)).map lineIndentOf) = []) :
    dedentLines ls = ls := by
  rw [dedentLines, h]
  simp

theorem exists_splitLines_cons (s : String) :
    ∃ l ls, splitLines s.data = l :: ls := by
  cases h : splitLines s.data with
  | nil => exact absurd h (splitLines_ne_nil s.data)
  | cons l ls => exact ⟨l, ls, rfl⟩

/-! ### Lemmas about the substring test -/

theorem hasSub_of_isPrefixOf (n hay : List Char) (h : n.isPrefixOf hay = true) :
    hasSub n hay = true := by
  cases hay with
  | nil => exact h
  | cons c rest => rw [hasSub, h]; rfl

theorem isPrefixOf_append_self (n t : List Char) : n.isPrefixOf (n ++ t) = true := by
  induction n with
  | nil => cases t <;> rfl
  | cons c cs ih => simp [List.isPrefixOf, ih]

theorem hasSub_append (n s t : List Char) : hasSub n (s ++ (n ++ t)) = true := by
  induction s with
  | nil => exact hasSub_of_isPrefixOf n (n ++ t) (isPrefixOf_append_self n t)
  | cons c s ih =>
    rw [List.cons_append, hasSub, ih]
    simp

/-- Claim C4 (amended): for every question and every non-empty resume context
whose first line contains a non-whitespace character and none of whose lines
(nor the question lines) is whitespace-only, the prompt handed to the
completion service is exactly the fixed system instruction, then the resume
text, then the question, in that order, joined by the fixed template
separators. (For arbitrary strings, `textwrap.dedent` additionally blanks
whitespace-only lines inside the resume and question: see the
counterexample.) -/
theorem full_prompt_structure (q r : String)
    (hr1 : firstLineSolid r = true) (hr : linesIntact r = true) (hq : linesIntact q = true) :
    full_prompt q r = "\n\n" ++ instructionCore ++ "\n\n\n        Resume summary:\n        "
      ++ r ++ "\n\n        Interviewer question: " ++ q ++ "\n" := by
  obtain ⟨R0, Rtl, hR⟩ := exists_splitLines_cons r
  obtain ⟨Q0, Qtl, hQ⟩ := exists_splitLines_cons q
  apply String.ext
  rw [show full_prompt q r = dedent ("\n        " ++ SYSTEM_PROMPT ++ "\n\n        Resume summary:\n        "
      ++ r ++ "\n\n        Interviewer question: " ++ q ++ "\n        ") from rfl, dedent]
  -- Step 1: reshape the argument of dedent around its newline boundaries
  have hS : ("\n        " ++ SYSTEM_PROMPT ++ "\n\n        Resume summary:\n        "
      ++ r ++ "\n\n        Interviewer question: " ++ q ++ "\n        ").data
      = promptHead.data ++ '\n' :: ((sp8 ++ r.data)
        ++ '\n' :: ('\n' :: ((iqSeg ++ q.data) ++ '\n' :: sp8))) := by
    have hspd : SYSTEM_PROMPT.data = "\nConsider this is your profile and act as candidate you were in the interview and I will be the\ninterviewer asking you the questions. Send me the answers only when I ask the prompt and\ncoding answers should be different if someone ask the same question again. If its coding send\nme with brief explanation and time and space complexity and no intros in the starting of the\nanswers.\n".data := by decide
    simp only [String.data_append, hspd, promptHead, sp8, iqSeg, instructionCore,
      List.append_assoc, List.cons_append, List.nil_append, List.append_nil]
  show dedentChars _ = _
  rw [hS]
  rw [dedentChars]
  -- Step 2: the line decomposition
  have h1 : splitLines (promptHead.data ++ '\n' :: ((sp8 ++ r.data)
      ++ '\n' :: ('\n' :: ((iqSeg ++ q.data) ++ '\n' :: sp8))))
      = (splitLines promptHead.data ++ ((sp8 ++ R0) :: Rtl
        ++ ([] :: ((iqSeg ++ Q0) :: Qtl ++ [sp8])))) := by
    rw [splitLines_append_newline, splitLines_append_newline, splitLines_cons_newline,
      splitLines_append_newline,
      splitLines_append_flat sp8 r.data R0 Rtl (by decide) hR,
      splitLines_append_flat iqSeg q.data Q0 Qtl (by decide) hQ,
      show splitLines sp8 = [sp8] from by decide]
  rw [h1]
  -- Step 3: blank-line normalization
  have hnr0 : normLine (sp8 ++ R0) = sp8 ++ R0 := by
    apply normLine_of_intact_nonnil
    have hh : R0.any (fun c => !isWsChar c) = true := by
      have h0 := hr1
      rw [firstLineSolid, hR] at h0
      simpa using h0
    rw [List.any_append, hh]
    simp
  have hnq0 : normLine (iqSeg ++ Q0) = iqSeg ++ Q0 := by
    apply normLine_of_intact_nonnil
    rw [List.any_append, show iqSeg.any (fun c => !isWsChar c) = true from by decide]
    simp
  have hnRtl : Rtl.map normLine = Rtl := by
    apply normLine_map_of_intact
    have h0 := hr
    rw [linesIntact, hR, List.all_cons, Bool.and_eq_true] at h0
    exact h0.2
  have hnQtl : Qtl.map normLine = Qtl := by
    apply normLine_map_of_intact
    have h0 := hq
    rw [linesIntact, hQ, List.all_cons, Bool.and_eq_true] at h0
    exact h0.2
  have hmap : ((splitLines promptHead.data ++ ((sp8 ++ R0) :: Rtl
        ++ ([] :: ((iqSeg ++ Q0) :: Qtl ++ [sp8])))).map normLine)
      = ((splitLines promptHead.data).map normLine ++ ((sp8 ++ R0) :: Rtl
        ++ ([] :: ((iqSeg ++ Q0) :: Qtl ++ [[]])))) := by
    simp only [List.map_append, List.map_cons, hnr0, hnq0, hnRtl, hnQtl,
      show normLine sp8 = [] from by decide, show normLine [] = [] from by decide,
      List.map_nil]
  rw [hmap]
  -- Step 4: the computed margin is empty
  have hmargin : computeMargin (((((splitLines promptHead.data).map normLine)
      ++ ((sp8 ++ R0) :: Rtl ++ ([] :: ((iqSeg ++ Q0) :: Qtl ++ [[]])))).filter
        (fun l : List Char => !l.isEmpty)).map lineIndentOf) = [] := by
    apply computeMargin_of_mem_nil
    have hany : ((splitLines promptHead.data).map normLine).any
        (fun l => !l.isEmpty && (lineIndentOf l).isEmpty) = true := by decide
    obtain ⟨l, hlmem, hlc⟩ := List.any_eq_true.mp hany
    rw [Bool.and_eq_true] at hlc
    refine List.mem_map.mpr ⟨l, List.mem_filter.mpr ⟨List.mem_append_left _ hlmem, hlc.1⟩, ?_⟩
    simpa using hlc.2
  rw [dedentLines_of_margin_nil _ hmargin]
  -- Step 5: join the lines back
  have hjNH : joinLines ((splitLines promptHead.data).map normLine)
      = answerHead.data := by decide
  rw [joinLines_append _ _ (by decide) (by simp), hjNH]
  rw [joinLines_append ((sp8 ++ R0) :: Rtl) _ (by simp) (by simp)]
  rw [joinLines_head_append sp8 R0 Rtl, ← hR, joinLines_splitLines]
  rw [show ((iqSeg ++ Q0) :: Qtl) ++ [[]] = (iqSeg ++ Q0) :: (Qtl ++ [[]]) from rfl]
  rw [joinLines_cons_cons]
  rw [joinLines_head_append iqSeg Q0 (Qtl ++ [[]])]
  rw [show Q0 :: (Qtl ++ [[]]) = (Q0 :: Qtl) ++ [[]] from rfl]
  rw [joinLines_append (Q0 :: Qtl) [[]] (by simp) (by simp)]
  rw [← hQ, joinLines_splitLines]
  rw [show joinLines [[]] = [] from rfl]
  -- Step 6: compare with the stated string
  simp only [answerHead, instructionCore, sp8, iqSeg, String.data_append,
    List.append_assoc, List.cons_append, List.nil_append, List.append_nil]

/-! ### Helper lemmas for the substring counterexample -/

theorem str_append_assoc (a b c : String) : (a ++ b) ++ c = a ++ (b ++ c) := by
  apply String.ext
  simp only [String.data_append, List.append_assoc]

theorem hasSub_append3 (n s1 s2 s3 t : List Char) :
    hasSub n (s1 ++ (s2 ++ (s3 ++ (n ++ t)))) = true := by
  have h := hasSub_append n ((s1 ++ s2) ++ s3) t
  simpa [List.append_assoc] using h

theorem hasSub_str_decomp (n p1 p2 p3 post : String) :
    hasSub n.data (p1 ++ (p2 ++ (p3 ++ (n ++ post)))).data = true := by
  have h : (p1 ++ (p2 ++ (p3 ++ (n ++ post)))).data
      = p1.data ++ (p2.data ++ (p3.data ++ (n.data ++ post.data))) := by
    simp only [String.data_append]
  rw [h]
  exact hasSub_append3 n.data p1.data p2.data p3.data post.data

/-! ### Theorems settling the claims -/

/-- Claim C1: whenever answer generation is invoked with an absent resume
context (`None`), `get_chatgpt_answer` emits exactly the missing-context
warning and returns `None` without issuing any request to the chat-completion
service, for every completion oracle and question. -/
theorem missing_resume_blocks_generation (openaiPresent : Bool)
    (completion : String → Except String String) (question : String) :
    get_chatgpt_answer openaiPresent completion question none
      = { effects := [.warning "Please upload a resume first so responses are contextual."],
          calls := [], answer := none } := rfl

/-- Claim C9: an empty-string resume context is treated identically to an
absent one: `get_chatgpt_answer` shows the upload-resume warning and returns
`None` without calling the completion service. -/
theorem empty_resume_same_as_missing (openaiPresent : Bool)
    (completion : String → Except String String) (question : String) :
    get_chatgpt_answer openaiPresent completion question (some "")
        = get_chatgpt_answer openaiPresent completion question none
      ∧ get_chatgpt_answer openaiPresent completion question (some "")
        = { effects := [.warning "Please upload a resume first so responses are contextual."],
            calls := [], answer := none } :=
  ⟨rfl, rfl⟩

/-- Claim C4 (counterexample): for the resume context containing a
whitespace-only line, the prompt is not a concatenation
instruction + resume text + question in that order with any separators:
`textwrap.dedent` blanks the whitespace-only line inside the resume, so the
resume text does not occur in the prompt at all. -/
theorem full_prompt_not_plain_concatenation :
    ¬ ∃ a b c d : String, full_prompt "hi" "a\n \na"
      = a ++ instructionCore ++ b ++ "a\n \na" ++ c ++ "hi" ++ d := by
  rintro ⟨a, b, c, d, h⟩
  rw [show a ++ instructionCore ++ b ++ "a\n \na" ++ c ++ "hi" ++ d
      = a ++ (instructionCore ++ (b ++ ("a\n \na" ++ (c ++ ("hi" ++ d))))) from by
    simp only [str_append_assoc]] at h
  have hsub : hasSub "a\n \na".data (full_prompt "hi" "a\n \na").data = true := by
    rw [h]
    exact hasSub_str_decomp "a\n \na" a instructionCore b (c ++ ("hi" ++ d))
  have hfalse : hasSub "a\n \na".data (full_prompt "hi" "a\n \na").data = false := by decide
  rw [hfalse] at hsub
  exact Bool.false_ne_true hsub

/-- Claim C5 (counterexample): the request issued by `get_chatgpt_answer`
contains no `system`-role message at all — the system instruction travels
inside the single `user` message — so the message list does not contain both
a `system` and a `user` role. -/
theorem no_system_role_message :
    ((get_chatgpt_answer true (fun _ => Except.ok "fine") "What is X" (some "cv")).calls.all
        (fun req => req.messages.any (fun m => m.role == "system"))) = false
      ∧ (get_chatgpt_answer true (fun _ => Except.ok "fine") "What is X" (some "cv")).calls
          ≠ [] := by
  constructor
  · simp [get_chatgpt_answer, pyTruthy, show "cv".isEmpty = false from by decide]
  · simp [get_chatgpt_answer, pyTruthy, show "cv".isEmpty = false from by decide]

/-- Claim C5 (amended): every request issued to the chat-completion service
carries the model identifier `gpt-4o` and exactly one role-tagged message,
whose role is `user` (the system instruction is embedded in its content). -/
theorem every_request_single_user_message (openaiPresent : Bool)
    (completion : String → Except String String) (question : String)
    (resume_text : Option String) :
    ((get_chatgpt_answer openaiPresent completion question resume_text).calls.all
      (fun req => req.model == "gpt-4o" && req.messages.length == 1
        && req.messages.all (fun m => m.role == "user"))) = true := by
  simp only [get_chatgpt_answer]
  split
  · rfl
  · split
    · rfl
    · split <;> rfl

/-- Claim C2: startup completes normally whenever the `openai` package is
present (whatever the other dependencies), but when `openai` is absent the
CONFIGURATION block raises an uncaught `AttributeError` — the `except`
handler itself dereferences `openai` — so the process aborts and the claim
fails for those combinations. -/
theorem startup_crashes_without_openai :
    (∀ (srb gb pb key : Bool), startup ⟨true, srb, gb, pb⟩ key
        = .ok (dependencyLoadWarnings ⟨true, srb, gb, pb⟩))
      ∧ startup ⟨false, true, true, true⟩ true
        = .raised "AttributeError: NoneType object has no attribute api_key" :=
  ⟨fun _ _ _ _ => rfl, rfl⟩

/-- Claim C7 (counterexample): the startup warning text is identical whether
`openai` or `pypdf` is the missing capability, so the warning does not name
which capabilities are missing. -/
theorem startup_warning_does_not_name_missing :
    dependencyLoadWarnings ⟨false, true, true, true⟩
        = dependencyLoadWarnings ⟨true, true, true, false⟩
      ∧ dependencyLoadWarnings ⟨false, true, true, true⟩ ≠ [] := by
  exact ⟨rfl, by decide⟩

/-- Claim C7 (amended): whenever at least one optional capability is
unavailable at startup, exactly one non-fatal warning is emitted, with a
fixed generic message that does not identify the missing capabilities. -/
theorem startup_single_generic_warning (d : Deps)
    (h : (d.openai && d.sr && d.gtts && d.pypdf) = false) :
    dependencyLoadWarnings d
      = [.warning "⚠️ Some audio or PDF libraries couldn\x27t load (expected in cloud mode)."] := by
  rw [dependencyLoadWarnings, h]
  rfl

/-- Witness for the amended C7 at a concrete dependency set. -/
theorem startup_single_generic_warning_witness :
    ((false && true && true && true) = false)
      ∧ dependencyLoadWarnings ⟨false, true, true, true⟩
        = [.warning "⚠️ Some audio or PDF libraries couldn\x27t load (expected in cloud mode)."] :=
  ⟨by decide, startup_single_generic_warning ⟨false, true, true, true⟩ (by decide)⟩

/-- Claim C8: every capture request issued through the Quick Listen path
passes a maximum listen duration of exactly 15 seconds to the
speech-recognition adapter, for every environment and recognizer oracle. -/
theorem capture_duration_is_fifteen (srPresent : Bool)
    (recognize : Nat → Except String String) :
    ((listen_and_transcribe srPresent recognize).captures.all
      (fun c => c.maxListenSeconds == 15)) = true := by
  rw [listen_and_transcribe]
  split
  · rfl
  · split <;> rfl

/-- Witness for the amended C4 at the concrete resume and question of the
end-to-end scenario of the spec. -/
theorem full_prompt_structure_witness :
    (firstLineSolid "Senior engineer, 5 years Go" = true)
      ∧ (linesIntact "Senior engineer, 5 years Go" = true)
      ∧ (linesIntact "Tell me about yourself" = true)
      ∧ full_prompt "Tell me about yourself" "Senior engineer, 5 years Go"
        = "\n\n" ++ instructionCore ++ "\n\n\n        Resume summary:\n        "
          ++ "Senior engineer, 5 years Go" ++ "\n\n        Interviewer question: "
          ++ "Tell me about yourself" ++ "\n" :=
  ⟨by decide, by decide, by decide,
    full_prompt_structure "Tell me about yourself" "Senior engineer, 5 years Go"
      (by decide) (by decide) (by decide)⟩

/-- Claim C6 (counterexample): the interaction surface is not a pure function
of the capability set, and the offered actions are not exactly the
capability-permitted ones: in local mode, at one and the same environment
(speech input available), the Generate Answer button is rendered only once the
typed input is non-blank — `st.button` sits behind the short-circuiting
`user_input.strip() and ...` — so the offered actions change with the typed
input while every capability flag stays fixed. -/
theorem offered_actions_not_capability_pure :
    offeredActions ⟨none, true, true⟩ "" ≠ offeredActions ⟨none, true, true⟩ "hi"
      ∧ UIAction.generateAnswer ∉ offeredActions ⟨none, true, true⟩ ""
      ∧ UIAction.generateAnswer ∈ offeredActions ⟨none, true, true⟩ "hi" :=
  ⟨by decide, by decide, by decide⟩

/-- Claim C6 (amended): the Quick Listen control is offered exactly when
speech input is available — speech_recognition importable, carrying a
`Microphone` attribute, and not running in the cloud environment — for every
environment and typed input, so the voice control is a function of the
capability flags alone (the rest of the surface is not: in local mode the
Generate Answer button additionally depends on the typed input). -/
theorem quick_listen_iff_speech_input (e : Env) (u : String) :
    (UIAction.quickListen ∈ offeredActions e u) ↔ speechInput e = true := by
  rcases e with ⟨env, sr, mic⟩
  cases henv : (env == some "cloud") <;> cases sr <;> cases mic <;>
    simp [offeredActions, speechInput, IS_CLOUD, henv] <;>
    (cases hu : (pyStrip u).isEmpty <;> simp [hu])

/-- Claim C10: a typed question that is empty or whitespace-only never
triggers answer generation, in cloud and in local mode alike: no completion
request is issued and the status, question and answer regions keep their
previous contents (the Quick Listen button not being pressed). -/
theorem blank_typed_question_is_inert (completion : String → Except String String)
    (recognize : Nat → Except String String) (ttsOk : Bool)
    (inp : RunInput) (init : Placeholders)
    (hblank : (pyStrip inp.userInput).isEmpty = true)
    (hlisten : inp.listenClicked = false) :
    (mainRun completion recognize ttsOk inp init).ph = init
      ∧ (mainRun completion recognize ttsOk inp init).calls = [] := by
  rw [mainRun]
  cases hc : IS_CLOUD inp.env <;>
    simp [cloudBranch, typedBranch, listenBranch, hblank, hlisten]

/-- Witness for C10 at a concrete whitespace-only input in local mode. -/
theorem blank_typed_question_is_inert_witness :
    ((pyStrip "   ").isEmpty = true)
      ∧ (mainRun (fun _ => Except.ok "answer") (fun _ => Except.ok "question") true
          ⟨⟨none, true, true⟩, "   ", true, false, some "cv", true, true⟩
          ⟨"s", "que", "ans"⟩).ph = ⟨"s", "que", "ans"⟩
      ∧ (mainRun (fun _ => Except.ok "answer") (fun _ => Except.ok "question") true
          ⟨⟨none, true, true⟩, "   ", true, false, some "cv", true, true⟩
          ⟨"s", "que", "ans"⟩).calls = [] :=
  ⟨by decide,
    (blank_typed_question_is_inert _ _ _ _ _ (by decide) rfl).1,
    (blank_typed_question_is_inert _ _ _ _ _ (by decide) rfl).2⟩

/-- Claim C3 (counterexample): on the Quick Listen path a failing completion
does not leave the previously displayed answer untouched — the answer region
has already been overwritten with the interim `_Generating answer..._` text
before the request was issued, and that text remains after the failure. -/
theorem voice_failure_overwrites_answer :
    ((mainRun (fun _ => Except.error "boom") (fun _ => Except.ok "What is X") true
        ⟨⟨none, true, true⟩, "", false, true, some "cv", true, true⟩
        ⟨"", "", "previous answer"⟩).ph.answer ≠ "previous answer")
      ∧ (Effect.error ("OpenAI API Error: " ++ "boom"))
          ∈ (mainRun (fun _ => Except.error "boom") (fun _ => Except.ok "What is X") true
        ⟨⟨none, true, true⟩, "", false, true, some "cv", true, true⟩
        ⟨"", "", "previous answer"⟩).effects := by
  constructor
  · decide
  · decide

/-- Claim C3 (amended): when the completion service fails, the typed-question
path leaves all three display regions untouched and surfaces the upstream
error; the Quick Listen path surfaces the same error but leaves the answer
region showing the interim `_Generating answer..._` text written before the
request (the status region is untouched). -/
theorem upstream_failure_keeps_or_marks_answer (e q r s0 q0 a0 : String)
    (hq : (pyStrip q).isEmpty = false) (hr : r.isEmpty = false) :
    ((mainRun (fun _ => Except.error e) (fun _ => Except.ok q) true
        ⟨⟨none, true, true⟩, q, true, false, some r, true, true⟩ ⟨s0, q0, a0⟩).ph
        = ⟨s0, q0, a0⟩
      ∧ (Effect.error ("OpenAI API Error: " ++ e))
          ∈ (mainRun (fun _ => Except.error e) (fun _ => Except.ok q) true
            ⟨⟨none, true, true⟩, q, true, false, some r, true, true⟩ ⟨s0, q0, a0⟩).effects)
    ∧ ((mainRun (fun _ => Except.error e) (fun _ => Except.ok q) true
        ⟨⟨none, true, true⟩, "", false, true, some r, true, true⟩ ⟨s0, q0, a0⟩).ph.answer
        = "_Generating answer..._"
      ∧ (mainRun (fun _ => Except.error e) (fun _ => Except.ok q) true
        ⟨⟨none, true, true⟩, "", false, true, some r, true, true⟩ ⟨s0, q0, a0⟩).ph.status = s0
      ∧ (Effect.error ("OpenAI API Error: " ++ e))
          ∈ (mainRun (fun _ => Except.error e) (fun _ => Except.ok q) true
            ⟨⟨none, true, true⟩, "", false, true, some r, true, true⟩ ⟨s0, q0, a0⟩).effects) := by
  have hIC : IS_CLOUD ⟨none, true, true⟩ = false := by decide
  have hqs : (!(pyStrip q).isEmpty) = true := by rw [hq]; rfl
  have hrs : pyTruthy (some r) = true := by rw [pyTruthy, hr]; rfl
  have hempty : (pyStrip "").isEmpty = true := by decide
  refine ⟨⟨?_, ?_⟩, ?_, ?_, ?_⟩ <;>
    simp [mainRun, hIC, typedBranch, listenBranch, get_chatgpt_answer,
      listen_and_transcribe, speak_text, hqs, hrs, hempty]

/-- Witness for the amended C3 at a concrete question, resume and failure. -/
theorem upstream_failure_keeps_or_marks_answer_witness :
    ((pyStrip "Tell me about yourself").isEmpty = false)
      ∧ ("Senior engineer".isEmpty = false)
      ∧ (((mainRun (fun _ => Except.error "Rate limit") (fun _ => Except.ok "Tell me about yourself") true
          ⟨⟨none, true, true⟩, "Tell me about yourself", true, false, some "Senior engineer", true, true⟩
          ⟨"st", "qu", "old answer"⟩).ph = ⟨"st", "qu", "old answer"⟩
        ∧ (Effect.error ("OpenAI API Error: " ++ "Rate limit"))
            ∈ (mainRun (fun _ => Except.error "Rate limit") (fun _ => Except.ok "Tell me about yourself") true
          ⟨⟨none, true, true⟩, "Tell me about yourself", true, false, some "Senior engineer", true, true⟩
          ⟨"st", "qu", "old answer"⟩).effects)
      ∧ ((mainRun (fun _ => Except.error "Rate limit") (fun _ => Except.ok "Tell me about yourself") true
          ⟨⟨none, true, true⟩, "", false, true, some "Senior engineer", true, true⟩
          ⟨"st", "qu", "old answer"⟩).ph.answer = "_Generating answer..._"
        ∧ (mainRun (fun _ => Except.error "Rate limit") (fun _ => Except.ok "Tell me about yourself") true
          ⟨⟨none, true, true⟩, "", false, true, some "Senior engineer", true, true⟩
          ⟨"st", "qu", "old answer"⟩).ph.status = "st"
        ∧ (Effect.error ("OpenAI API Error: " ++ "Rate limit"))
            ∈ (mainRun (fun _ => Except.error "Rate limit") (fun _ => Except.ok "Tell me about yourself") true
          ⟨⟨none, true, true⟩, "", false, true, some "Senior engineer", true, true⟩
          ⟨"st", "qu", "old answer"⟩).effects)) :=
  ⟨by decide, by decide,
    upstream_failure_keeps_or_marks_answer "Rate limit" "Tell me about yourself"
      "Senior engineer" "st" "qu" "old answer" (by decide) (by decide)⟩

end InterviewAssistant
